import Mathlib

/-!
Shallow embedding of the Resello photo-validation and price-depreciation
pipeline (src/price_calculator.py, src/validation_helpers.py,
src/clip_utils.py, src/config.py).

Python floats are modelled as `Rat` (all constants in the source are exact
decimals), Python `int(x)` truncation as `truncToInt`, Python dicts as
assoc lists or chained-if functions preserving insertion order, and
`None`-returning / raising paths as `Option`.
-/

namespace Resello

/-- Python `int(x)` applied to a float: truncation toward zero. -/
def truncToInt (q : Rat) : Int :=
  if 0 ≤ q then ⌊q⌋ else ⌈q⌉

/-- The `age_depreciation_map` dict from `PriceCalculator.__init__`
(keys 0–7; absent keys give `none`, like Python `in` failing). -/
def age_depreciation_map (w : Int) : Option Rat :=
  if w = 0 then some 0.15
  else if w = 1 then some 0.15
  else if w = 2 then some 0.25
  else if w = 3 then some 0.35
  else if w = 4 then some 0.43
  else if w = 5 then some 0.50
  else if w = 6 then some 0.55
  else if w = 7 then some 0.60
  else none

/-- Embedding of `PriceCalculator.calculate_age_depreciation`. -/
def calculate_age_depreciation (years : Rat) : Rat :=
  let whole_years := truncToInt years
  match age_depreciation_map whole_years with
  | some r => r
  | none => if whole_years > 7 then 0.60 else 0.15

/-- The `defect_rates` dict from `PriceCalculator.__init__`, in insertion
order; each value is the (low, medium, high) rate triple. -/
def defect_rates : List (String × (Rat × Rat × Rat)) :=
  [("scratches", (0.02, 0.05, 0.08)),
   ("dents", (0.03, 0.07, 0.12)),
   ("cracks", (0.10, 0.20, 0.35)),
   ("heavy wear", (0.05, 0.10, 0.15)),
   ("discoloration", (0.02, 0.04, 0.07)),
   ("broken parts", (0.15, 0.30, 0.50)),
   ("other", (0.02, 0.05, 0.10))]

/-- Test that `needle` occurs as a contiguous run at the front of `hay`
(helper for the Python substring test `in`). -/
def startsWithL : List Char → List Char → Bool
  | _, [] => true
  | [], _ :: _ => false
  | a :: as, b :: bs => a == b && startsWithL as bs

/-- Test that `needle` occurs as a contiguous run anywhere in `hay`
(the Python test `needle in hay` on strings, over char lists). -/
def hasSubL (needle : List Char) : List Char → Bool
  | [] => startsWithL [] needle
  | c :: cs => startsWithL (c :: cs) needle || hasSubL needle cs

/-- The Python substring test `needle in hay`. -/
def strHasSub (needle hay : String) : Bool :=
  hasSubL needle.data hay.data

/-- Python `str.lower()` (ASCII range; all vocabulary in the source is
ASCII). -/
def strLower (s : String) : String :=
  ⟨s.data.map Char.toLower⟩

/-- One entry of the `issues` list handed to the calculator: a Python dict
whose `type` / `severity` / `description` keys may be absent. -/
structure DamageFinding where
  dtype : Option String
  severity : Option String
  description : Option String
deriving Repr, DecidableEq, Inhabited

/-- Embedding of `self.defect_rates[rate_category].get(severity, ...["low"])`: look the
severity up in a (low, medium, high) triple, defaulting to the low rate. -/
def sevRate (r : Rat × Rat × Rat) (severity : String) : Rat :=
  if severity = "low" then r.1
  else if severity = "medium" then r.2.1
  else if severity = "high" then r.2.2
  else r.1

/-- The type-matching loop of `calculate_defect_depreciation`: first table
key that is a substring of the lowered issue type wins; otherwise the
`"other"` entry of the table is used. -/
def matchCategory (issue_type : String) : String × (Rat × Rat × Rat) :=
  match defect_rates.find? (fun c => strHasSub c.1 issue_type) with
  | some c => c
  | none => ("other", (defect_rates.lookup "other").getD (0, 0, 0))

/-- The per-issue rate computed inside the loop of
`calculate_defect_depreciation`. -/
def issueRate (issue : DamageFinding) : Rat :=
  let issue_type := strLower (issue.dtype.getD "other")
  let severity := strLower (issue.severity.getD "low")
  sevRate (matchCategory issue_type).2 severity

/-- One entry of the `breakdown` list. -/
structure BreakdownEntry where
  dtype : String
  severity : String
  rate : Rat
  description : String
deriving Repr, DecidableEq, Inhabited

/-- The breakdown dict appended for one issue. -/
def mkBreakdownEntry (issue : DamageFinding) : BreakdownEntry :=
  { dtype := strLower (issue.dtype.getD "other")
    severity := strLower (issue.severity.getD "low")
    rate := issueRate issue
    description := issue.description.getD "" }

/-- Return value of `calculate_defect_depreciation`. -/
structure DefectResult where
  total_rate : Rat
  raw_total : Rat
  breakdown : List BreakdownEntry
  is_capped : Bool
deriving Repr, DecidableEq, Inhabited

/-- Embedding of `PriceCalculator.calculate_defect_depreciation`: the accumulation loop
is rendered as a map/sum over the issue list. -/
def calculate_defect_depreciation (issues : List DamageFinding) : DefectResult :=
  let total_rate := (issues.map issueRate).sum
  let breakdown := issues.map mkBreakdownEntry
  { total_rate := min total_rate 0.50
    raw_total := total_rate
    breakdown := breakdown
    is_capped := decide (total_rate > 0.50) }

/-- Return value of `calculate_final_price` (the nested dicts flattened
into one record). -/
structure PricingResult where
  base_price : Rat
  age_years : Rat
  age_rate : Rat
  age_amount : Rat
  defect_rate : Rat
  defect_amount : Rat
  defect_breakdown : List BreakdownEntry
  total_depreciation_rate : Rat
  total_depreciation_amount : Rat
  final_price : Rat
  currency : String
deriving Repr, DecidableEq, Inhabited

/-- Embedding of `PriceCalculator.calculate_final_price`. Here `base_price` is `Option Rat`
(callers may pass `None`); `if not base_price: return None` fails exactly
on `none` and on `0`. -/
def calculate_final_price (base_price : Option Rat) (years : Rat)
    (issues : List DamageFinding) : Option PricingResult :=
  match base_price with
  | none => none
  | some bp =>
    if bp = 0 then none
    else
      let age_rate := calculate_age_depreciation years
      let defect_data := calculate_defect_depreciation issues
      let defect_rate := defect_data.total_rate
      let total_depreciation_rate := min (age_rate + defect_rate) 0.90
      let final_price := bp * (1 - total_depreciation_rate)
      let min_price := bp * 0.10
      let final_price := max final_price min_price
      some
        { base_price := bp
          age_years := years
          age_rate := age_rate
          age_amount := bp * age_rate
          defect_rate := defect_rate
          defect_amount := bp * defect_rate
          defect_breakdown := defect_data.breakdown
          total_depreciation_rate := total_depreciation_rate
          total_depreciation_amount := bp * total_depreciation_rate
          final_price := final_price
          currency := "EGP" }

/-! ## validation_helpers.py: duplicate detection -/

/-- Hamming distance between two perceptual-hash bit vectors
(`abs(h - ph)` on `imagehash` values: the number of differing bits). -/
def hammingDist (a b : List Bool) : Nat :=
  (List.zipWith (fun x y => x != y) a b).count true

/-- The loop of `find_duplicates`: `hashes` holds the already-hashed views
in insertion order; each new view is compared against all of them. -/
def fd_aux {Img : Type} (phash : Img → List Bool) (threshold : Nat) :
    List (String × List Bool) → List (String × Img) → List (String × String)
  | _, [] => []
  | hashes, (view, file) :: rest =>
    let h := phash file
    ((hashes.filter (fun p => decide (hammingDist h p.2 ≤ threshold))).map
        (fun p => (view, p.1)))
      ++ fd_aux phash threshold (hashes ++ [(view, h)]) rest

/-- Embedding of `find_duplicates` from validation_helpers.py. The perceptual hash
(`compute_phash`, an external image-processing primitive) is passed in as
a function; the Python default threshold is 5. -/
def find_duplicates {Img : Type} (phash : Img → List Bool)
    (uploaded_files : List (String × Img)) (threshold : Nat) :
    List (String × String) :=
  fd_aux phash threshold [] uploaded_files

/-! ## clip_utils.py: category consistency and view checks.

The CLIP scoring backend (`clip_logits`) is an external collaborator: a
view is represented by the logits and softmax probabilities the backend
returns for it, and in `clip_view_check` an image is represented by the
scoring function itself. -/

/-- Constant `CLIP_TOP1_TOP2_MARGIN` from config.py. -/
def CLIP_TOP1_TOP2_MARGIN : Rat := 1.5

/-- Constant `CLIP_EXPECTED_VS_UNRELATED` from config.py. -/
def CLIP_EXPECTED_VS_UNRELATED : Rat := 1.0

/-- Constant `CLIP_MAX_UNRELATED_ALLOWED` from config.py. -/
def CLIP_MAX_UNRELATED_ALLOWED : Rat := 0.45

/-- Mapping `CLIP_PRODUCT_CLASS_TO_NAME` from config.py. -/
def CLIP_PRODUCT_CLASS_TO_NAME (i : Fin 3) : String :=
  if i = 0 then "Laptop" else if i = 1 then "Mobile" else "Unrelated"

/-- Mapping `CATEGORY_TO_CLIP_CLASS` from config.py (`KeyError` on other keys is
modelled as `none`). -/
def CATEGORY_TO_CLIP_CLASS (s : String) : Option (Fin 3) :=
  if s = "Laptop" then some 0 else if s = "Mobile" then some 1 else none

/-- What the CLIP backend returns for one image against the 3-way product
label set: logits and softmax probabilities. -/
structure ViewScore where
  logits : Fin 3 → Rat
  probs : Fin 3 → Rat

/-- Index of the largest of the three logits (`torch.topk(logits, 2)`
top-1; ties resolve to the lower index). -/
def top1Idx (l : Fin 3 → Rat) : Fin 3 :=
  if l 1 > l 0 then (if l 2 > l 1 then 2 else 1)
  else (if l 2 > l 0 then 2 else 0)

/-- The two indices other than `t`, in ascending order. -/
def restIdx (t : Fin 3) : Fin 3 × Fin 3 :=
  if t = 0 then (1, 2) else if t = 1 then (0, 2) else (0, 1)

/-- Index of the second-largest logit (`torch.topk` top-2). -/
def top2Idx (l : Fin 3 → Rat) : Fin 3 :=
  let r := restIdx (top1Idx l)
  if l r.2 > l r.1 then r.2 else r.1

/-- `margin = top1 - top2` over the three logits. -/
def viewMargin (l : Fin 3 → Rat) : Rat :=
  l (top1Idx l) - l (top2Idx l)

/-- The per-view `reasons` list built inside `clip_product_check`. -/
def viewReasons (expected_idx : Fin 3) (v : ViewScore) : List String :=
  (if CLIP_PRODUCT_CLASS_TO_NAME (top1Idx v.logits) = "Unrelated"
    then ["predicted Unrelated"] else [])
  ++ (if viewMargin v.logits < CLIP_TOP1_TOP2_MARGIN
    then ["low confidence margin"] else [])
  ++ (if v.probs 2 > CLIP_MAX_UNRELATED_ALLOWED
    then ["high unrelated probability"] else [])
  ++ (if v.logits expected_idx - v.logits 2 < CLIP_EXPECTED_VS_UNRELATED
    then ["selected category not dominant"] else [])

/-- One entry of the `per_view` dict of `clip_product_check`. -/
structure PerViewDetail where
  top : String
  prob : Rat
  margin : Rat
  reasons : List String
deriving Inhabited

/-- The `per_view` dict of `clip_product_check` (insertion order). -/
def per_view_details (expected_idx : Fin 3) (files : List (String × ViewScore)) :
    List (String × PerViewDetail) :=
  files.map (fun p =>
    (p.1,
      { top := CLIP_PRODUCT_CLASS_TO_NAME (top1Idx p.2.logits)
        prob := p.2.probs (top1Idx p.2.logits)
        margin := viewMargin p.2.logits
        reasons := viewReasons expected_idx p.2 }))

/-- Embedding of `max(set(votes), key=votes.count)`. CPython iterates a set of the
small ints 0–2 in ascending order, and `max` keeps the first maximal
element, so ties go to the smallest index present; an empty vote list
makes Python `max` raise (`none`). -/
def majorityVote (votes : List (Fin 3)) : Option (Fin 3) :=
  match ([0, 1, 2] : List (Fin 3)).filter (fun v => votes.contains v) with
  | [] => none
  | c :: cs =>
    some (cs.foldl (fun best v =>
      if votes.count v > votes.count best then v else best) c)

/-- Embedding of `clip_product_check` from clip_utils.py. Here `uploaded_files` carries the
per-view scores from the backend; a `none` result models an uncaught Python
exception (unknown category key, or `max` on no votes). -/
def clip_product_check (uploaded_files : List (String × ViewScore))
    (selected_category : String) :
    Option (Bool × String × List (String × PerViewDetail)) :=
  match CATEGORY_TO_CLIP_CLASS selected_category with
  | none => none
  | some expected_idx =>
    let per_view := per_view_details expected_idx uploaded_files
    let rejected := uploaded_files.filter
      (fun p => decide (viewReasons expected_idx p.2 ≠ []))
    let votes := (uploaded_files.filter
      (fun p => decide (viewReasons expected_idx p.2 = []))).map
      (fun p => top1Idx p.2.logits)
    match rejected with
    | _ :: _ =>
      some (false, "Unrelated / wrong product images", per_view)
    | [] =>
      match majorityVote votes with
      | none => none
      | some majority =>
        some (decide (majority = expected_idx),
          CLIP_PRODUCT_CLASS_TO_NAME majority, per_view)

/-- Table `VIEW_CLIP_LABELS` from config.py. -/
def VIEW_CLIP_LABELS (view_name : String) : Option (List String) :=
  if view_name = "Screen on (front, open)" then some
    ["a clear photo showing the full screen of an open laptop",
     "a photo of just the laptop keyboard, screen not visible",
     "a close-up portrait of a single corner or hinge of a laptop",
     "a photo of an unrelated object, blurry scene, or extremely cropped image"]
  else if view_name = "Keyboard & trackpad" then some
    ["a photo showing a laptop keyboard",
     "a photo of an unrelated object or scenery"]
  else if view_name = "Top lid (closed)" then some
    ["a photo of the smooth outer top lid of a closed laptop with brand logo or stickers",
     "a photo of the bottom base panel of a laptop with vents screws and rubber feet",
     "a photo of an open laptop showing keyboard or screen",
     "a photo of an unrelated object"]
  else if view_name = "Left side ports" then some
    ["a photo of the left side edge of a laptop",
     "a photo of an unrelated object or scenery"]
  else if view_name = "Right side ports" then some
    ["a photo of the right side edge of a laptop",
     "a photo of an unrelated object or scenery"]
  else if view_name = "Bottom panel" then some
    ["a photo of the large flat bottom base panel of a laptop with screws vents and rubber feet",
     "a photo of the smooth top lid of a closed laptop with brand logo",
     "a photo of the narrow side edge of a laptop",
     "a photo of an unrelated object"]
  else if view_name = "Front screen" then some
    ["a handheld mobile photo of the front screen display of a smartphone with bezels and notch",
     "a photo of the back panel of a phone with camera lenses",
     "a photo of an unrelated object"]
  else if view_name = "Back panel" then some
    ["a wide photo of the complete full back panel of a smartphone showing the entire uncropped rear surface from top to bottom",
     "a cropped close-up photo showing only part of the phone or just the camera module",
     "a photo of the front screen of a smartphone",
     "a photo of an unrelated object"]
  else if view_name = "Left side (buttons)" then some
    ["a photo of the side edge of a smartphone with volume or power buttons",
     "a photo of the bottom edge with charging port and speaker holes",
     "a photo of an unrelated object"]
  else if view_name = "Right side (buttons)" then some
    ["a photo of the side edge of a smartphone with volume or power buttons",
     "a photo of the bottom edge with charging port and speaker holes",
     "a photo of an unrelated object"]
  else if view_name = "Bottom edge (charging port)" then some
    ["a photo of the bottom edge of a smartphone showing USB charging port and speaker holes",
     "a photo of the side edge of a smartphone showing volume or power buttons",
     "a photo of an unrelated object"]
  else if view_name = "Camera close-up" then some
    ["a close-up handheld photo of the rear camera lens and sensors of a smartphone",
     "a photo of an unrelated object"]
  else none

/-- Table `VIEW_REQUIRED_MARGINS` from config.py. -/
def VIEW_REQUIRED_MARGINS : List (String × Rat) :=
  [("Screen on (front, open)", 0.35),
   ("Keyboard & trackpad", 0.10),
   ("Top lid (closed)", 0.15),
   ("Bottom panel", 0.30),
   ("Left side ports", 0.005),
   ("Right side ports", 0.005),
   ("Front screen", 0.25),
   ("Back panel", 0.18),
   ("Left side (buttons)", 0.05),
   ("Right side (buttons)", 0.05),
   ("Bottom edge (charging port)", 0.15),
   ("Camera close-up", 0.20)]

/-- Fallback `CONFIG[product_type]["required_margin"]` from config.py
(`product_type` is always "Laptop" or "Mobile" where this is used). -/
def CONFIG_required_margin (product_type : String) : Rat :=
  if product_type = "Mobile" then 0.3 else 0.6

/-- The mobile view-name list hard-coded in `clip_view_check`. -/
def mobile_view_names : List String :=
  ["Front screen", "Back panel", "Left side (buttons)",
   "Right side (buttons)", "Bottom edge (charging port)", "Camera close-up"]

/-- First index of the largest element of a logit list (`torch.topk`
top-1 over a label list; ties resolve to the lower index). -/
def listTop1 (l : List Rat) : Nat :=
  (l.foldl (fun acc x =>
    let i := acc.1
    let best := acc.2.1
    let bestVal := acc.2.2
    if x > bestVal then (i + 1, i, x) else (i + 1, best, bestVal))
    (0, 0, l.headD 0)).2.1

/-- First index of the largest element with index ≠ `t` (`torch.topk`
top-2). -/
def listTop2 (l : List Rat) (t : Nat) : Nat :=
  (l.foldl (fun acc x =>
    let i := acc.1
    let best := acc.2.1
    let bestVal := acc.2.2
    if i ≠ t ∧ (best = t ∨ x > bestVal) then (i + 1, i, x)
    else (i + 1, best, bestVal))
    (0, t, 0)).2.1

/-- Render a rational with two decimals (the Python format `"%.2f"`, modelled
with round-half-up; only the shape of the message matters here). -/
def fmt2 (q : Rat) : String :=
  let h : Int := ⌊q * 100 + 1/2⌋
  let sign := if h < 0 then "-" else ""
  let a := h.natAbs
  sign ++ toString (a / 100) ++ "."
    ++ (if a % 100 < 10 then "0" else "") ++ toString (a % 100)

/-- The `info` dict of `clip_view_check`. -/
structure ViewInfo where
  predicted : String
  prob : Rat
  margin : Rat
deriving Inhabited

/-- Embedding of `clip_view_check` from clip_utils.py. The uploaded image is
represented by what the CLIP backend would return for it on any label
list: a `(logits, probs)` pair per label. -/
def clip_view_check (image : List String → List Rat × List Rat)
    (view_name : String) : Bool × List String × ViewInfo :=
  match VIEW_CLIP_LABELS view_name with
  | none => (true, [], default)
  | some labels =>
    let scores := image labels
    let logits := scores.1
    let probs := scores.2
    let top_idx := listTop1 logits
    let margin := logits.getD top_idx 0 - logits.getD (listTop2 logits top_idx) 0
    let product_type := if view_name ∈ mobile_view_names then "Mobile" else "Laptop"
    let required_margin :=
      (VIEW_REQUIRED_MARGINS.lookup view_name).getD
        (CONFIG_required_margin product_type)
    let reasons :=
      (if top_idx ≠ 0 then ["Matching failed: " ++ labels.getD top_idx ""] else [])
      ++ (if margin < required_margin then
          ["Image not clear enough (Confidence margin: " ++ fmt2 margin ++ ")"]
        else [])
    (decide (reasons.length = 0), reasons,
      { predicted := labels.getD top_idx ""
        prob := probs.getD top_idx 0
        margin := margin })


lemma sevRate_cases (r : Rat × Rat × Rat) (s : String) :
    sevRate r s = r.1 ∨ sevRate r s = r.2.1 ∨ sevRate r s = r.2.2 := by
  unfold sevRate
  split_ifs <;> tauto

lemma defect_rates_nonneg :
    ∀ c ∈ defect_rates, 0 ≤ c.2.1 ∧ 0 ≤ c.2.2.1 ∧ 0 ≤ c.2.2.2 := by
  intro c hc
  simp only [defect_rates, List.mem_cons, List.not_mem_nil, or_false] at hc
  rcases hc with h | h | h | h | h | h | h <;> subst h <;> norm_num

lemma matchCategory_nonneg (t : String) :
    0 ≤ (matchCategory t).2.1 ∧ 0 ≤ (matchCategory t).2.2.1
      ∧ 0 ≤ (matchCategory t).2.2.2 := by
  unfold matchCategory
  cases h : defect_rates.find? (fun c => strHasSub c.1 t) with
  | some c =>
    simpa using defect_rates_nonneg c (List.mem_of_find?_eq_some h)
  | none =>
    rw [show (defect_rates.lookup "other") = some (0.02, 0.05, 0.10) from rfl]
    norm_num

lemma issueRate_nonneg (issue : DamageFinding) : 0 ≤ issueRate issue := by
  unfold issueRate
  obtain ⟨h1, h2, h3⟩ :=
    matchCategory_nonneg (strLower (issue.dtype.getD "other"))
  rcases sevRate_cases (matchCategory (strLower (issue.dtype.getD "other"))).2
    (strLower (issue.severity.getD "low")) with h | h | h <;> rw [h] <;> assumption

lemma rates_sum_nonneg (issues : List DamageFinding) :
    0 ≤ (issues.map issueRate).sum := by
  apply List.sum_nonneg
  intro x hx
  obtain ⟨i, _, rfl⟩ := List.mem_map.mp hx
  exact issueRate_nonneg i


/-- C1: for every base_price > 0, years >= 0 and issue list,
`calculate_final_price` succeeds and its result satisfies
total_depreciation_rate = min(age_rate + defect_rate, 0.90) and
final_price = max(base_price * (1 - total_depreciation_rate),
base_price * 0.10); consequently the rate never exceeds 0.90 and the
final price never drops below 0.10 * base_price. -/
theorem C1_final_price_invariants (bp years : Rat) (issues : List DamageFinding)
    (hbp : 0 < bp) (hy : 0 ≤ years) :
    (calculate_final_price (some bp) years issues).isSome = true
    ∧ ((calculate_final_price (some bp) years issues).getD default).total_depreciation_rate
        = min (calculate_age_depreciation years
            + (calculate_defect_depreciation issues).total_rate) 0.90
    ∧ ((calculate_final_price (some bp) years issues).getD default).final_price
        = max (bp * (1 - ((calculate_final_price (some bp) years
            issues).getD default).total_depreciation_rate)) (bp * 0.10)
    ∧ ((calculate_final_price (some bp) years issues).getD default).total_depreciation_rate
        ≤ 0.90
    ∧ bp * 0.10
        ≤ ((calculate_final_price (some bp) years issues).getD default).final_price := by
  have hne : bp ≠ 0 := ne_of_gt hbp
  simp only [calculate_final_price, if_neg hne, Option.getD_some, Option.isSome_some]
  exact ⟨trivial, trivial, trivial, min_le_right _ _, le_max_right _ _⟩

/-- C4 counterexample: base_price = -100 is <= 0, yet
`calculate_final_price` returns a result instead of failing, because the
Python guard `if not base_price` only catches falsy values. -/
theorem C4_counterexample :
    (-100 : Rat) ≤ 0 ∧ (calculate_final_price (some (-100)) 0 []).isSome = true := by
  constructor
  · norm_num
  · norm_num [calculate_final_price]

/-- C4 amended: `calculate_final_price` fails (returns none) exactly when
base_price is absent or equals 0; for every nonzero base_price (in
particular every base_price > 0) it returns a PricingResult. -/
theorem C4_amended (bp years : Rat) (issues : List DamageFinding) (h : bp ≠ 0) :
    calculate_final_price none years issues = none
    ∧ calculate_final_price (some 0) years issues = none
    ∧ (calculate_final_price (some bp) years issues).isSome = true := by
  refine ⟨rfl, by simp [calculate_final_price], ?_⟩
  simp [calculate_final_price, h]

/-- C3: `calculate_defect_depreciation` sums every finding rate
unconditionally (raw_total is the plain sum over the issue list, with no
deduplication or interaction discount), returns
total_rate = min(raw_total, 0.50), returns one breakdown entry per
finding carrying the rate of that finding even when the cap is active, and
sets is_capped exactly when the raw sum exceeds 0.50. -/
theorem C3_defect_structure (issues : List DamageFinding) :
    (calculate_defect_depreciation issues).raw_total = (issues.map issueRate).sum
    ∧ (calculate_defect_depreciation issues).total_rate
        = min (calculate_defect_depreciation issues).raw_total 0.50
    ∧ (calculate_defect_depreciation issues).breakdown.length = issues.length
    ∧ (calculate_defect_depreciation issues).breakdown.map (fun e => e.rate)
        = issues.map issueRate
    ∧ ((calculate_defect_depreciation issues).is_capped = true
        ↔ 0.50 < (calculate_defect_depreciation issues).raw_total) := by
  refine ⟨rfl, rfl, by simp [calculate_defect_depreciation], ?_, ?_⟩
  · simp only [calculate_defect_depreciation, List.map_map]
    rfl
  · simp [calculate_defect_depreciation]

/-- C6: defect depreciation is monotonic in the issue list: appending any
finding never decreases total_rate, and once total_rate equals the 0.50
cap it stays exactly 0.50 under any further additions. -/
theorem C6_defect_monotone (issues extra : List DamageFinding) (f : DamageFinding) :
    (calculate_defect_depreciation issues).total_rate
      ≤ (calculate_defect_depreciation (issues ++ [f])).total_rate
    ∧ ((calculate_defect_depreciation issues).total_rate = 0.50 →
        (calculate_defect_depreciation (issues ++ extra)).total_rate = 0.50) := by
  constructor
  · simp only [calculate_defect_depreciation, List.map_append, List.sum_append]
    apply min_le_min_right
    have := rates_sum_nonneg [f]
    simp at this ⊢
    linarith [issueRate_nonneg f]
  · intro hcap
    simp only [calculate_defect_depreciation, List.map_append, List.sum_append] at *
    have hraw : (0.50 : Rat) ≤ (issues.map issueRate).sum := by
      by_contra hlt
      push_neg at hlt
      rw [min_eq_left hlt.le] at hcap
      exact absurd hcap (ne_of_lt hlt)
    have hextra := rates_sum_nonneg extra
    rw [min_eq_right (by linarith)]


lemma age_map_none_of_out (w : Int) (h : w < 0 ∨ 7 < w) :
    age_depreciation_map w = none := by
  unfold age_depreciation_map
  split_ifs <;> first | rfl | (exfalso; omega)

lemma age_ge8 (y : Rat) (hy : 8 ≤ y) : calculate_age_depreciation y = 0.60 := by
  have h0 : (0 : Rat) ≤ y := le_trans (by norm_num) hy
  have h8 : (8 : Int) ≤ ⌊y⌋ := Int.le_floor.mpr (by exact_mod_cast hy)
  unfold calculate_age_depreciation truncToInt
  rw [if_pos h0]
  show ((match age_depreciation_map ⌊y⌋ with
    | some r => r
    | none => if ⌊y⌋ > 7 then 0.60 else 0.15 : Rat)) = 0.60
  rw [age_map_none_of_out ⌊y⌋ (Or.inr (by omega))]
  rw [if_pos (by omega)]

lemma age_lt2 (y : Rat) (h0 : 0 ≤ y) (h2 : y < 2) :
    calculate_age_depreciation y = 0.15 := by
  have hf0 : (0 : Int) ≤ ⌊y⌋ := Int.floor_nonneg.mpr h0
  have hf2 : ⌊y⌋ < 2 := Int.floor_lt.mpr (by exact_mod_cast h2)
  unfold calculate_age_depreciation truncToInt
  rw [if_pos h0]
  simp only [age_depreciation_map]
  rcases (by omega : ⌊y⌋ = 0 ∨ ⌊y⌋ = 1) with h | h <;> rw [h] <;> rfl

lemma age_int_eval (k : Int) : calculate_age_depreciation (k : Rat)
    = match age_depreciation_map k with
      | some r => r
      | none => if k > 7 then 0.60 else 0.15 := by
  have ht : truncToInt (k : Rat) = k := by
    unfold truncToInt
    split_ifs <;> simp [Int.floor_intCast, Int.ceil_intCast]
  simp only [calculate_age_depreciation, ht]

/-- C2: `calculate_age_depreciation` equals the bucketed table keyed by
floored whole years: 0.15 on all of [0, 2) (in particular at 0.999 and
at 1.0), a monotonically non-decreasing table from 0.15 at year 0 to
0.60 at year 7, and exactly 0.60 for every years >= 8. -/
theorem C2_age_table :
    (∀ y : Rat, 0 ≤ y → y < 2 → calculate_age_depreciation y = 0.15)
    ∧ calculate_age_depreciation 0.999 = 0.15
    ∧ calculate_age_depreciation 1 = 0.15
    ∧ calculate_age_depreciation 0 = 0.15
    ∧ calculate_age_depreciation 7 = 0.60
    ∧ (∀ k : Int, 0 ≤ k → k ≤ 6 →
        calculate_age_depreciation (k : Rat)
          ≤ calculate_age_depreciation ((k : Rat) + 1))
    ∧ (∀ y : Rat, 8 ≤ y → calculate_age_depreciation y = 0.60) := by
  refine ⟨age_lt2, ?_, ?_, ?_, ?_, ?_, age_ge8⟩
  · norm_num [calculate_age_depreciation, truncToInt, age_depreciation_map]
  · norm_num [calculate_age_depreciation, truncToInt, age_depreciation_map]
  · norm_num [calculate_age_depreciation, truncToInt, age_depreciation_map]
  · norm_num [calculate_age_depreciation, truncToInt, age_depreciation_map]
  · intro k hk0 hk6
    have h1 : ((k : Rat) + 1) = ((k + 1 : Int) : Rat) := by push_cast; ring
    rw [age_int_eval k, h1, age_int_eval (k + 1)]
    interval_cases k <;> norm_num [age_depreciation_map]

/-- C10: `calculate_age_depreciation` is total on all rational inputs: it
always returns one of the table values, which lie inside
[0.15, 0.60], and it returns 0.15 for every negative years input. -/
theorem C10_age_total (y : Rat) :
    (calculate_age_depreciation y ∈ ([0.15, 0.25, 0.35, 0.43, 0.50, 0.55, 0.60] : List Rat)
      ∧ 0.15 ≤ calculate_age_depreciation y
      ∧ calculate_age_depreciation y ≤ 0.60)
    ∧ (y < 0 → calculate_age_depreciation y = 0.15) := by
  constructor
  · unfold calculate_age_depreciation
    simp only [age_depreciation_map]
    split_ifs <;> norm_num [List.mem_cons]
  · intro hy
    have hw : truncToInt y ≤ 0 := by
      unfold truncToInt
      rw [if_neg (not_le.mpr hy)]
      exact Int.ceil_le.mpr (by exact_mod_cast hy.le)
    unfold calculate_age_depreciation
    by_cases hw0 : truncToInt y = 0
    · simp [age_depreciation_map, hw0]
    · show ((match age_depreciation_map (truncToInt y) with
        | some r => r
        | none => if truncToInt y > 7 then 0.60 else 0.15 : Rat)) = 0.15
      rw [age_map_none_of_out (truncToInt y) (Or.inl (by omega))]
      rw [if_neg (by omega)]


/-- C5: per finding, `calculate_defect_depreciation` matches the lowered
type by substring against the fixed rate-table keys (first matching key
in table order wins), falls back to the "other" entry when no key
matches, looks the matched triple up by the lowered severity, defaults
to the low rate when the severity is absent or unrecognized, and the
whole computation is case-insensitive in both fields. -/
theorem C5_type_matching (issue : DamageFinding) :
    (∀ c, defect_rates.find?
        (fun e => strHasSub e.1 (strLower (issue.dtype.getD "other"))) = some c →
      issueRate issue = sevRate c.2 (strLower (issue.severity.getD "low")))
    ∧ ((∀ c ∈ defect_rates,
        strHasSub c.1 (strLower (issue.dtype.getD "other")) = false) →
      issueRate issue
        = sevRate ((defect_rates.lookup "other").getD (0, 0, 0))
            (strLower (issue.severity.getD "low")))
    ∧ (∀ s, s = strLower (issue.severity.getD "low") →
        s ≠ "low" → s ≠ "medium" → s ≠ "high" →
      issueRate issue = (matchCategory (strLower (issue.dtype.getD "other"))).2.1)
    ∧ (issue.severity = none →
      issueRate issue = (matchCategory (strLower (issue.dtype.getD "other"))).2.1)
    ∧ (∀ i2 : DamageFinding,
        strLower (i2.dtype.getD "other") = strLower (issue.dtype.getD "other") →
        strLower (i2.severity.getD "low") = strLower (issue.severity.getD "low") →
      issueRate i2 = issueRate issue) := by
  refine ⟨?_, ?_, ?_, ?_, ?_⟩
  · intro c hc
    simp only [issueRate, matchCategory, hc]
  · intro hall
    have h : defect_rates.find?
        (fun e => strHasSub e.1 (strLower (issue.dtype.getD "other"))) = none :=
      List.find?_eq_none.mpr (by intro c hc; simp [hall c hc])
    simp only [issueRate, matchCategory, h]
  · intro s hs h1 h2 h3
    subst hs
    simp only [issueRate, sevRate]
    rw [if_neg h1, if_neg h2, if_neg h3]
  · intro hnone
    simp only [issueRate, hnone]
    rfl
  · intro i2 ht hs
    simp only [issueRate, ht, hs]


/-- C1 witness: the invariants instantiated at base_price = 10000, years = 2, no issues. -/
theorem C1_witness :
    (calculate_final_price (some 10000) 2 []).isSome = true
    ∧ ((calculate_final_price (some 10000) 2 []).getD default).total_depreciation_rate
        = min (calculate_age_depreciation 2
            + (calculate_defect_depreciation []).total_rate) 0.90
    ∧ ((calculate_final_price (some 10000) 2 []).getD default).final_price
        = max ((10000 : Rat) * (1 - ((calculate_final_price (some 10000) 2
            []).getD default).total_depreciation_rate)) ((10000 : Rat) * 0.10)
    ∧ ((calculate_final_price (some 10000) 2 []).getD default).total_depreciation_rate
        ≤ 0.90
    ∧ (10000 : Rat) * 0.10
        ≤ ((calculate_final_price (some 10000) 2 []).getD default).final_price :=
  C1_final_price_invariants 10000 2 [] (by norm_num) (by norm_num)

/-- C2 witness: the bucket facts instantiated at years = 1.5 and years = 9. -/
theorem C2_witness :
    calculate_age_depreciation (3/2) = 0.15
    ∧ calculate_age_depreciation 9 = 0.60 :=
  ⟨C2_age_table.1 (3/2) (by norm_num) (by norm_num),
   (C2_age_table.2.2.2.2.2.2) 9 (by norm_num)⟩

/-- C4 witness: the amended claim instantiated at base_price = 10000, years = 2, no issues. -/
theorem C4_witness :
    calculate_final_price none 2 [] = none
    ∧ calculate_final_price (some 0) 2 [] = none
    ∧ (calculate_final_price (some 10000) 2 []).isSome = true :=
  C4_amended 10000 2 [] (by norm_num)

/-- C5 witness: the fallback conjunct instantiated at an unmatched type
("water damage") with an unrecognized severity ("severe"). -/
theorem C5_witness :
    issueRate ⟨some "water damage", some "severe", none⟩
      = sevRate ((defect_rates.lookup "other").getD (0, 0, 0))
          (strLower ((⟨some "water damage", some "severe", none⟩
            : DamageFinding).severity.getD "low")) :=
  (C5_type_matching ⟨some "water damage", some "severe", none⟩).2.1 (by decide)

/-- C6 witness: two high broken-parts findings reach the cap, and adding
a low scratch keeps total_rate at exactly 0.50. -/
theorem C6_witness :
    (calculate_defect_depreciation
        [⟨some "broken parts", some "high", none⟩,
         ⟨some "broken parts", some "high", none⟩]).total_rate
      ≤ (calculate_defect_depreciation
          ([⟨some "broken parts", some "high", none⟩,
            ⟨some "broken parts", some "high", none⟩]
            ++ [⟨some "scratches", some "low", none⟩])).total_rate
    ∧ (calculate_defect_depreciation
        ([⟨some "broken parts", some "high", none⟩,
          ⟨some "broken parts", some "high", none⟩]
          ++ [⟨some "scratches", some "low", none⟩])).total_rate = 0.50 :=
  ⟨(C6_defect_monotone
      [⟨some "broken parts", some "high", none⟩,
       ⟨some "broken parts", some "high", none⟩]
      [⟨some "scratches", some "low", none⟩]
      ⟨some "scratches", some "low", none⟩).1,
   (C6_defect_monotone
      [⟨some "broken parts", some "high", none⟩,
       ⟨some "broken parts", some "high", none⟩]
      [⟨some "scratches", some "low", none⟩]
      ⟨some "scratches", some "low", none⟩).2
     (by norm_num [calculate_defect_depreciation,
        show issueRate ⟨some "broken parts", some "high", none⟩ = 0.50 from rfl])⟩

/-- C10 witness: the negative-years conjunct instantiated at years = -3.5. -/
theorem C10_witness : calculate_age_depreciation (-(7/2)) = 0.15 :=
  (C10_age_total (-(7/2))).2 (by norm_num)


lemma bne_comm_bool (x y : Bool) : (x != y) = (y != x) := by
  cases x <;> cases y <;> rfl

lemma hammingDist_comm (a : List Bool) : ∀ b, hammingDist a b = hammingDist b a := by
  induction a with
  | nil => intro b; cases b <;> rfl
  | cons x xs ih =>
    intro b
    cases b with
    | nil => rfl
    | cons y ys =>
      simp only [hammingDist, List.zipWith_cons_cons, List.count_cons] at *
      rw [bne_comm_bool, ih ys]

/-- C8: `find_duplicates` flags a pair iff the Hamming distance between
the two perceptual hashes is at most the threshold (default 5),
independently of upload order (Hamming distance is symmetric); for
exactly two views with identical hashes it returns exactly one pair. -/
theorem C8_duplicates_symmetric {Img : Type} (phash : Img → List Bool)
    (A B : String) (x y : Img) (t : Nat) :
    (∀ a b : List Bool, hammingDist a b = hammingDist b a)
    ∧ find_duplicates phash [(A, x), (B, y)] t
        = (if hammingDist (phash y) (phash x) ≤ t then [(B, A)] else [])
    ∧ find_duplicates phash [(B, y), (A, x)] t
        = (if hammingDist (phash x) (phash y) ≤ t then [(A, B)] else [])
    ∧ ((B, A) ∈ find_duplicates phash [(A, x), (B, y)] t
        ↔ hammingDist (phash x) (phash y) ≤ t)
    ∧ (phash x = phash y → find_duplicates phash [(A, x), (B, y)] 5 = [(B, A)]) := by
  have heval : ∀ (C D : String) (u v : Img),
      find_duplicates phash [(C, u), (D, v)] t
        = (if hammingDist (phash v) (phash u) ≤ t then [(D, C)] else []) := by
    intro C D u v
    by_cases h : hammingDist (phash v) (phash u) ≤ t <;>
      simp [find_duplicates, fd_aux, List.filter, h]
  refine ⟨hammingDist_comm, heval A B x y, ?_, ?_, ?_⟩
  · rw [heval B A y x, hammingDist_comm]
  · rw [heval A B x y, hammingDist_comm]
    by_cases h : hammingDist (phash x) (phash y) ≤ t <;> simp [h]
  · intro hxy
    have : hammingDist (phash y) (phash x) ≤ 5 := by
      rw [hxy]
      have : ∀ c : List Bool, hammingDist c c = 0 := by
        intro c
        induction c with
        | nil => rfl
        | cons z zs ih => simp [hammingDist, List.zipWith_cons_cons] at ih ⊢; simp [ih]
      simp [this]
    simp only [find_duplicates, fd_aux, List.filter, List.map]
    rw [decide_eq_true this]
    rfl

/-- C8 witness: two views with identical hashes yield exactly the single
pair (back, front). -/
theorem C8_witness :
    find_duplicates (fun _ : Unit => [true, false]) [("front", ()), ("back", ())] 5
      = [("back", "front")] :=
  (C8_duplicates_symmetric (fun _ : Unit => [true, false])
    "front" "back" () () 5).2.2.2.2 rfl

/-- C9: for every image and every view name with no registered candidate
label set, `clip_view_check` passes with an empty reasons list. -/
theorem C9_unregistered_view_passes (image : List String → List Rat × List Rat)
    (view_name : String) (h : VIEW_CLIP_LABELS view_name = none) :
    clip_view_check image view_name = (true, [], default) := by
  simp only [clip_view_check, h]

/-- C9 witness: the unregistered view name "Side panel" always passes. -/
theorem C9_witness :
    clip_view_check (fun _ => ([], [])) "Side panel" = (true, [], default) :=
  C9_unregistered_view_passes (fun _ => ([], [])) "Side panel" rfl


lemma majorityVote_spec (votes : List (Fin 3)) (m : Fin 3)
    (hm : majorityVote votes = some m) :
    m ∈ votes ∧ (∀ v ∈ votes, votes.count v ≤ votes.count m)
      ∧ (∀ v ∈ votes, votes.count v = votes.count m → m ≤ v) := by
  have hnotin : ∀ w : Fin 3, votes.contains w = false → votes.count w = 0 := by
    intro w hw
    exact List.count_eq_zero.mpr (by simpa using hw)
  have hpos : ∀ w : Fin 3, votes.contains w = true → 0 < votes.count w := by
    intro w hw
    exact List.count_pos_iff.mpr (by simpa using hw)
  have hexh : ∀ v : Fin 3, v = 0 ∨ v = 1 ∨ v = 2 := by decide
  unfold majorityVote at hm
  cases hb0 : votes.contains (0 : Fin 3) <;> cases hb1 : votes.contains (1 : Fin 3) <;>
    cases hb2 : votes.contains (2 : Fin 3)
  -- 0:false 1:false 2:false
  · rw [show ([0,1,2] : List (Fin 3)).filter (fun v => votes.contains v) = []
        from by simp [List.filter_cons, List.filter_nil, (show (0:Fin 3) ∉ votes from by simpa using hb0), (show (1:Fin 3) ∉ votes from by simpa using hb1), (show (2:Fin 3) ∉ votes from by simpa using hb2)]] at hm
    simp at hm
  -- 0:false 1:false 2:true  (cands = [2])
  · rw [show ([0,1,2] : List (Fin 3)).filter (fun v => votes.contains v) = [2]
        from by simp [List.filter_cons, List.filter_nil, (show (0:Fin 3) ∉ votes from by simpa using hb0), (show (1:Fin 3) ∉ votes from by simpa using hb1), (show (2:Fin 3) ∈ votes from by simpa using hb2)]] at hm
    simp only [List.foldl_nil, Option.some_inj] at hm
    subst hm
    refine ⟨by simpa using hb2, ?_, ?_⟩
    · intro v hv
      rcases hexh v with rfl | rfl | rfl
      · rw [hnotin 0 hb0]; exact Nat.zero_le _
      · rw [hnotin 1 hb1]; exact Nat.zero_le _
      · exact le_refl _
    · intro v hv hcnt
      rcases hexh v with rfl | rfl | rfl
      · exact absurd hv (by simpa using hb0)
      · exact absurd hv (by simpa using hb1)
      · exact le_refl _
  -- 0:false 1:true 2:false  (cands = [1])
  · rw [show ([0,1,2] : List (Fin 3)).filter (fun v => votes.contains v) = [1]
        from by simp [List.filter_cons, List.filter_nil, (show (0:Fin 3) ∉ votes from by simpa using hb0), (show (1:Fin 3) ∈ votes from by simpa using hb1), (show (2:Fin 3) ∉ votes from by simpa using hb2)]] at hm
    simp only [List.foldl_nil, Option.some_inj] at hm
    subst hm
    refine ⟨by simpa using hb1, ?_, ?_⟩
    · intro v hv
      rcases hexh v with rfl | rfl | rfl
      · rw [hnotin 0 hb0]; exact Nat.zero_le _
      · exact le_refl _
      · rw [hnotin 2 hb2]; exact Nat.zero_le _
    · intro v hv hcnt
      rcases hexh v with rfl | rfl | rfl
      · exact absurd hv (by simpa using hb0)
      · exact le_refl _
      · exact absurd hv (by simpa using hb2)
  -- 0:false 1:true 2:true  (cands = [1, 2])
  · rw [show ([0,1,2] : List (Fin 3)).filter (fun v => votes.contains v) = [1, 2]
        from by simp [List.filter_cons, List.filter_nil, (show (0:Fin 3) ∉ votes from by simpa using hb0), (show (1:Fin 3) ∈ votes from by simpa using hb1), (show (2:Fin 3) ∈ votes from by simpa using hb2)]] at hm
    simp only [List.foldl_cons, List.foldl_nil, Option.some_inj] at hm
    by_cases hc : votes.count (2 : Fin 3) > votes.count (1 : Fin 3)
    · rw [if_pos hc] at hm
      subst hm
      refine ⟨by simpa using hb2, ?_, ?_⟩
      · intro v hv
        rcases hexh v with rfl | rfl | rfl
        · rw [hnotin 0 hb0]; exact Nat.zero_le _
        · omega
        · exact le_refl _
      · intro v hv hcnt
        rcases hexh v with rfl | rfl | rfl
        · exact absurd hv (by simpa using hb0)
        · omega
        · exact le_refl _
    · rw [if_neg hc] at hm
      subst hm
      refine ⟨by simpa using hb1, ?_, ?_⟩
      · intro v hv
        rcases hexh v with rfl | rfl | rfl
        · rw [hnotin 0 hb0]; exact Nat.zero_le _
        · exact le_refl _
        · omega
      · intro v hv hcnt
        rcases hexh v with rfl | rfl | rfl
        · exact absurd hv (by simpa using hb0)
        · exact le_refl _
        · decide
  -- 0:true 1:false 2:false  (cands = [0])
  · rw [show ([0,1,2] : List (Fin 3)).filter (fun v => votes.contains v) = [0]
        from by simp [List.filter_cons, List.filter_nil, (show (0:Fin 3) ∈ votes from by simpa using hb0), (show (1:Fin 3) ∉ votes from by simpa using hb1), (show (2:Fin 3) ∉ votes from by simpa using hb2)]] at hm
    simp only [List.foldl_nil, Option.some_inj] at hm
    subst hm
    refine ⟨by simpa using hb0, ?_, ?_⟩
    · intro v hv
      rcases hexh v with rfl | rfl | rfl
      · exact le_refl _
      · rw [hnotin 1 hb1]; exact Nat.zero_le _
      · rw [hnotin 2 hb2]; exact Nat.zero_le _
    · intro v hv hcnt
      exact Fin.zero_le v
  -- 0:true 1:false 2:true  (cands = [0, 2])
  · rw [show ([0,1,2] : List (Fin 3)).filter (fun v => votes.contains v) = [0, 2]
        from by simp [List.filter_cons, List.filter_nil, (show (0:Fin 3) ∈ votes from by simpa using hb0), (show (1:Fin 3) ∉ votes from by simpa using hb1), (show (2:Fin 3) ∈ votes from by simpa using hb2)]] at hm
    simp only [List.foldl_cons, List.foldl_nil, Option.some_inj] at hm
    by_cases hc : votes.count (2 : Fin 3) > votes.count (0 : Fin 3)
    · rw [if_pos hc] at hm
      subst hm
      refine ⟨by simpa using hb2, ?_, ?_⟩
      · intro v hv
        rcases hexh v with rfl | rfl | rfl
        · omega
        · rw [hnotin 1 hb1]; exact Nat.zero_le _
        · exact le_refl _
      · intro v hv hcnt
        rcases hexh v with rfl | rfl | rfl
        · omega
        · exact absurd hv (by simpa using hb1)
        · exact le_refl _
    · rw [if_neg hc] at hm
      subst hm
      refine ⟨by simpa using hb0, ?_, ?_⟩
      · intro v hv
        rcases hexh v with rfl | rfl | rfl
        · exact le_refl _
        · rw [hnotin 1 hb1]; exact Nat.zero_le _
        · omega
      · intro v hv hcnt
        exact Fin.zero_le v
  -- 0:true 1:true 2:false  (cands = [0, 1])
  · rw [show ([0,1,2] : List (Fin 3)).filter (fun v => votes.contains v) = [0, 1]
        from by simp [List.filter_cons, List.filter_nil, (show (0:Fin 3) ∈ votes from by simpa using hb0), (show (1:Fin 3) ∈ votes from by simpa using hb1), (show (2:Fin 3) ∉ votes from by simpa using hb2)]] at hm
    simp only [List.foldl_cons, List.foldl_nil, Option.some_inj] at hm
    by_cases hc : votes.count (1 : Fin 3) > votes.count (0 : Fin 3)
    · rw [if_pos hc] at hm
      subst hm
      refine ⟨by simpa using hb1, ?_, ?_⟩
      · intro v hv
        rcases hexh v with rfl | rfl | rfl
        · omega
        · exact le_refl _
        · rw [hnotin 2 hb2]; exact Nat.zero_le _
      · intro v hv hcnt
        rcases hexh v with rfl | rfl | rfl
        · omega
        · exact le_refl _
        · exact absurd hv (by simpa using hb2)
    · rw [if_neg hc] at hm
      subst hm
      refine ⟨by simpa using hb0, ?_, ?_⟩
      · intro v hv
        rcases hexh v with rfl | rfl | rfl
        · exact le_refl _
        · omega
        · rw [hnotin 2 hb2]; exact Nat.zero_le _
      · intro v hv hcnt
        exact Fin.zero_le v
  -- 0:true 1:true 2:true  (cands = [0, 1, 2])
  · rw [show ([0,1,2] : List (Fin 3)).filter (fun v => votes.contains v) = [0, 1, 2]
        from by simp [List.filter_cons, List.filter_nil, (show (0:Fin 3) ∈ votes from by simpa using hb0), (show (1:Fin 3) ∈ votes from by simpa using hb1), (show (2:Fin 3) ∈ votes from by simpa using hb2)]] at hm
    simp only [List.foldl_cons, List.foldl_nil, Option.some_inj] at hm
    by_cases hc1 : votes.count (1 : Fin 3) > votes.count (0 : Fin 3)
    · rw [if_pos hc1] at hm
      by_cases hc2 : votes.count (2 : Fin 3) > votes.count (1 : Fin 3)
      · rw [if_pos hc2] at hm
        subst hm
        refine ⟨by simpa using hb2, ?_, ?_⟩
        · intro v hv
          rcases hexh v with rfl | rfl | rfl
          · omega
          · omega
          · exact le_refl _
        · intro v hv hcnt
          rcases hexh v with rfl | rfl | rfl
          · omega
          · omega
          · exact le_refl _
      · rw [if_neg hc2] at hm
        subst hm
        refine ⟨by simpa using hb1, ?_, ?_⟩
        · intro v hv
          rcases hexh v with rfl | rfl | rfl
          · omega
          · exact le_refl _
          · omega
        · intro v hv hcnt
          rcases hexh v with rfl | rfl | rfl
          · omega
          · exact le_refl _
          · decide
    · rw [if_neg hc1] at hm
      by_cases hc2 : votes.count (2 : Fin 3) > votes.count (0 : Fin 3)
      · rw [if_pos hc2] at hm
        subst hm
        refine ⟨by simpa using hb2, ?_, ?_⟩
        · intro v hv
          rcases hexh v with rfl | rfl | rfl
          · omega
          · omega
          · exact le_refl _
        · intro v hv hcnt
          rcases hexh v with rfl | rfl | rfl
          · omega
          · omega
          · exact le_refl _
      · rw [if_neg hc2] at hm
        subst hm
        refine ⟨by simpa using hb0, ?_, ?_⟩
        · intro v hv
          rcases hexh v with rfl | rfl | rfl
          · exact le_refl _
          · omega
          · omega
        · intro v hv hcnt
          exact Fin.zero_le v


lemma name_unrelated_iff (i : Fin 3) :
    CLIP_PRODUCT_CLASS_TO_NAME i = "Unrelated" ↔ i = 2 := by
  fin_cases i <;> simp [CLIP_PRODUCT_CLASS_TO_NAME]

lemma majorityVote_ne_none (votes : List (Fin 3)) (hne : votes ≠ []) :
    (majorityVote votes).isSome = true := by
  obtain ⟨v, hv⟩ := List.exists_mem_of_ne_nil votes hne
  unfold majorityVote
  cases hf : ([0, 1, 2] : List (Fin 3)).filter (fun u => votes.contains u) with
  | cons c cs => simp
  | nil =>
    exfalso
    have hmem : v ∈ ([0, 1, 2] : List (Fin 3)).filter (fun u => votes.contains u) := by
      rw [List.mem_filter]
      exact ⟨by fin_cases v <;> simp, by simpa using hv⟩
    rw [hf] at hmem
    simp at hmem

/-- C7: in `clip_product_check`, a view is rejected iff one of the four
independent conditions holds (top label is Unrelated; top1 - top2 margin
below the global minimum; Unrelated probability above the global
ceiling; expected-minus-Unrelated logit gap below the global minimum);
if any view is rejected the whole check fails with the
"Unrelated / wrong product images" reason; otherwise the check passes
iff the majority vote over per-view top labels equals the expected
category, where the majority is the label with the maximal vote count
and ties break to the first label seen while iterating the vote set. -/
theorem C7_product_check (files : List (String × ViewScore)) (selected : String)
    (e : Fin 3) (he : CATEGORY_TO_CLIP_CLASS selected = some e) (hne : files ≠ []) :
    (∀ p ∈ files, (viewReasons e p.2 ≠ [] ↔
        (top1Idx p.2.logits = 2
          ∨ viewMargin p.2.logits < CLIP_TOP1_TOP2_MARGIN
          ∨ p.2.probs 2 > CLIP_MAX_UNRELATED_ALLOWED
          ∨ p.2.logits e - p.2.logits 2 < CLIP_EXPECTED_VS_UNRELATED)))
    ∧ ((∃ p ∈ files, viewReasons e p.2 ≠ []) →
        clip_product_check files selected
          = some (false, "Unrelated / wrong product images", per_view_details e files))
    ∧ ((∀ p ∈ files, viewReasons e p.2 = []) →
        (majorityVote (files.map (fun p => top1Idx p.2.logits))).isSome = true
        ∧ clip_product_check files selected
          = some
              (decide (majorityVote (files.map (fun p => top1Idx p.2.logits)) = some e),
                CLIP_PRODUCT_CLASS_TO_NAME
                  ((majorityVote (files.map (fun p => top1Idx p.2.logits))).getD 0),
                per_view_details e files))
    ∧ (∀ votes : List (Fin 3), ∀ m, majorityVote votes = some m →
        m ∈ votes ∧ (∀ v ∈ votes, votes.count v ≤ votes.count m)
          ∧ (∀ v ∈ votes, votes.count v = votes.count m → m ≤ v)) := by
  refine ⟨?_, ?_, ?_, majorityVote_spec⟩
  · intro p hp
    unfold viewReasons
    by_cases h1 : CLIP_PRODUCT_CLASS_TO_NAME (top1Idx p.2.logits) = "Unrelated" <;>
    by_cases h2 : viewMargin p.2.logits < CLIP_TOP1_TOP2_MARGIN <;>
    by_cases h3 : p.2.probs 2 > CLIP_MAX_UNRELATED_ALLOWED <;>
    by_cases h4 : p.2.logits e - p.2.logits 2 < CLIP_EXPECTED_VS_UNRELATED <;>
      simp [h1, h2, h3, h4, ← name_unrelated_iff]
  · intro ⟨p, hp, hpr⟩
    simp only [clip_product_check, he]
    cases hr : files.filter (fun q => decide (viewReasons e q.2 ≠ [])) with
    | cons a as => rfl
    | nil =>
      exfalso
      have : p ∈ files.filter (fun q => decide (viewReasons e q.2 ≠ [])) :=
        List.mem_filter.mpr ⟨hp, by simpa using hpr⟩
      rw [hr] at this
      simp at this
  · intro hall
    have hr : files.filter (fun q => decide (viewReasons e q.2 ≠ [])) = [] :=
      List.filter_eq_nil_iff.mpr (by intro a ha; simpa using hall a ha)
    have hv : files.filter (fun q => decide (viewReasons e q.2 = [])) = files :=
      List.filter_eq_self.mpr (by intro a ha; simpa using hall a ha)
    have hvne : files.map (fun p => top1Idx p.2.logits) ≠ [] := by
      intro hmap
      exact hne (List.map_eq_nil_iff.mp hmap)
    refine ⟨majorityVote_ne_none _ hvne, ?_⟩
    simp only [clip_product_check, he, hr, hv]
    cases hmv : majorityVote (files.map (fun p => top1Idx p.2.logits)) with
    | none =>
      exfalso
      have := majorityVote_ne_none _ hvne
      rw [hmv] at this
      simp at this
    | some m =>
      simp only [Option.getD_some]
      have hdec : decide (m = e) = decide (some m = some e) := by
        rw [decide_eq_decide]
        simp
      rw [hdec]


/-- A concrete confidently-"Laptop" backend score. -/
def w7score : ViewScore :=
  { logits := fun i => if i = 0 then 10 else 0
    probs := fun i => if i = 0 then 0.9 else 0.05 }

lemma w7score_reasons : viewReasons 0 w7score = [] := by
  have ht : top1Idx w7score.logits = 0 := by
    simp only [top1Idx, w7score]
    norm_num [(show ¬((1 : Fin 3) = 0) from by decide),
      (show ¬((2 : Fin 3) = 0) from by decide)]
  have ht2 : top2Idx w7score.logits = 1 := by
    simp only [top2Idx, ht, restIdx]
    norm_num [w7score, (show ¬((1 : Fin 3) = 0) from by decide),
      (show ¬((2 : Fin 3) = 0) from by decide)]
  simp only [viewReasons, viewMargin, ht, ht2]
  norm_num [w7score, CLIP_TOP1_TOP2_MARGIN,
    CLIP_MAX_UNRELATED_ALLOWED, CLIP_EXPECTED_VS_UNRELATED,
    (show CLIP_PRODUCT_CLASS_TO_NAME 0 ≠ "Unrelated" from by decide),
    (show ¬((1 : Fin 3) = 0) from by decide),
    (show ¬((2 : Fin 3) = 0) from by decide)]

/-- C7 witness: a single confidently-Laptop view under the selected
category Laptop follows the no-rejection branch. -/
theorem C7_witness :
    (majorityVote ([("front", w7score)].map (fun p => top1Idx p.2.logits))).isSome = true
    ∧ clip_product_check [("front", w7score)] "Laptop"
        = some
            (decide (majorityVote
                ([("front", w7score)].map (fun p => top1Idx p.2.logits)) = some 0),
              CLIP_PRODUCT_CLASS_TO_NAME
                ((majorityVote
                  ([("front", w7score)].map (fun p => top1Idx p.2.logits))).getD 0),
              per_view_details 0 [("front", w7score)]) :=
  (C7_product_check [("front", w7score)] "Laptop" 0 rfl (List.cons_ne_nil _ _)).2.2.1
    (by
      intro p hp
      rw [List.mem_singleton] at hp
      subst hp
      exact w7score_reasons)

end Resello
